import Mathlib

set_option maxRecDepth 8000

/-!
Shallow embedding of the authentication/session core of the kaceylon
backend: the admin account model (`models/userModel.js`), the refresh-token
ledger (`models/refreshTokenModel.js`), and the auth controller/middleware
(`controllers/authController.js`: `protect`, `verifyRefreshToken`,
`register`, `login`, `refreshToken`, `logout`), composed as the routes of
`routes/authRouter.js` wire them.  Time is in milliseconds (`Date.now()`),
accounts and ledger rows are lists, and JWTs are records carrying their
claims, absolute expiry and signing secret.
-/

namespace Kaceylon

/-- One document of the `RefreshToken` collection
(`models/refreshTokenModel.js`): token value, owning user id, absolute
expiry (ms), revoked flag, creation time. -/
structure TokenRow where
  token : String
  user : Nat
  expiresAt : Nat
  isRevoked : Bool
  createdAt : Nat
  deriving Repr, DecidableEq

/-- One document of the `Admin` collection (`models/userModel.js`).  The
`password` field holds the bcrypt hash after the pre-save hook ran. -/
structure Account where
  id : Nat
  name : String
  email : String
  password : String
  role : String
  isActive : Bool
  lastLogin : Option Nat
  deriving Repr, DecidableEq

/-- Environment configuration: signing secrets and TTLs
(`JWT_SECRET`, `JWT_EXPIRE`, `JWT_REFRESH_SECRET`, `JWT_REFRESH_EXPIRE`).
The access TTL is kept in milliseconds; the refresh TTL is the raw
environment string, parsed as the source parses it. -/
structure Config where
  jwtSecret : String
  jwtExpireMs : Nat
  jwtRefreshSecret : String
  jwtRefreshExpire : String
  deriving Repr, DecidableEq

/-- ASCII lowercase of one character (the mongoose `lowercase: true`
setter on the email path). -/
def lowerChar (c : Char) : Char :=
  if 65 ≤ c.toNat ∧ c.toNat ≤ 90 then Char.ofNat (c.toNat + 32) else c

/-- ASCII lowercase of a string. -/
def lowerStr (s : String) : String :=
  ⟨s.data.map lowerChar⟩

/-- Model of the bcrypt hash primitive (external collaborator): an
injective one-way function. -/
def bcryptHash (p : String) : String :=
  "$2a$12$" ++ p

/-- Model of `bcrypt.compare(candidate, storedHash)`. -/
def bcryptCompare (candidate stored : String) : Bool :=
  stored = bcryptHash candidate

/-- JS `String.prototype.includes` for a single character. -/
def containsChar (s : String) (c : Char) : Bool :=
  s.data.contains c

/-- JS `parseInt`, digits of the string's prefix. -/
def leadingNatAux : List Char → Nat → Nat
  | c :: cs, acc => if c.isDigit then leadingNatAux cs (acc * 10 + (c.toNat - 48)) else acc
  | [], acc => acc

def leadingNat (s : String) : Nat :=
  leadingNatAux s.data 0

/-- `generateRefreshToken` (userModel.js lines 99-110): parse
`JWT_REFRESH_EXPIRE` into seconds, branching on a `d`/`h`/`m` suffix. -/
def parseExpireSeconds (s : String) : Nat :=
  if containsChar s 'd' then leadingNat s * 24 * 60 * 60
  else if containsChar s 'h' then leadingNat s * 60 * 60
  else if containsChar s 'm' then leadingNat s * 60
  else leadingNat s

/-- Access-token claims signed by `generateAccessToken`. -/
structure AccessClaims where
  id : Nat
  email : String
  role : String
  deriving Repr, DecidableEq

/-- A signed JWT, modelled as its payload plus absolute expiry (ms) plus
the secret it was signed with. -/
structure SignedToken where
  claims : AccessClaims
  exp : Nat
  secret : String
  deriving Repr, DecidableEq

/-- `adminSchema.methods.generateAccessToken`: sign `{id, email, role}`
with `JWT_SECRET`, expiring after the configured TTL. -/
def generateAccessToken (a : Account) (now : Nat) (cfg : Config) : SignedToken :=
  { claims := { id := a.id, email := a.email, role := a.role }
    exp := now + cfg.jwtExpireMs
    secret := cfg.jwtSecret }

/-- Failure modes of `jwt.verify`. -/
inductive JwtError where
  | expired
  | invalid
  deriving Repr, DecidableEq

/-- Model of `jwt.verify(token, secret)`: wrong secret fails with a
generic error; a token whose expiry has passed fails with
`TokenExpiredError`; otherwise the claims are returned. -/
def jwtVerify (secret : String) (t : SignedToken) (now : Nat) : Except JwtError AccessClaims :=
  if t.secret = secret then
    if t.exp ≤ now then .error .expired else .ok t.claims
  else .error .invalid

/-- `RefreshToken.createToken` row construction
(refreshTokenModel.js lines 168-176): `expiresAt = now + expiresIn*1000`. -/
def mkTokenRow (uid : Nat) (tok : String) (expiresInSecs now : Nat) : TokenRow :=
  { token := tok, user := uid, expiresAt := now + expiresInSecs * 1000
    isRevoked := false, createdAt := now }

/-- `RefreshToken.createToken`: insert a fresh, unrevoked row. -/
def createToken (rows : List TokenRow) (uid : Nat) (tok : String) (expiresInSecs now : Nat) : List TokenRow :=
  rows ++ [mkTokenRow uid tok expiresInSecs now]

/-- `RefreshToken.createToken` with the store's failure mode made
explicit: when persistence fails the create rejects and no row is
written. -/
def createTokenE (persistFails : Bool) (rows : List TokenRow) (uid : Nat) (tok : String) (expiresInSecs now : Nat) : Except Unit (List TokenRow) :=
  if persistFails then .error () else .ok (createToken rows uid tok expiresInSecs now)

/-- `adminSchema.methods.generateRefreshToken`: sign the refresh token,
persist it through `RefreshToken.createToken`, and only then return it;
a persistence failure propagates and no token is returned. -/
def generateRefreshToken (persistFails : Bool) (a : Account) (rows : List TokenRow) (now : Nat) (tokVal : String) (cfg : Config) : Except Unit (String × List TokenRow) :=
  match createTokenE persistFails rows a.id tokVal (parseExpireSeconds cfg.jwtRefreshExpire) now with
  | .error e => .error e
  | .ok rows' => .ok (tokVal, rows')

/-- `RefreshToken.findValidToken`: `findOne({token, isRevoked: false,
expiresAt: {$gt: now}})`. -/
def findValidToken (rows : List TokenRow) (tok : String) (now : Nat) : Option TokenRow :=
  rows.find? (fun r => r.token = tok && !r.isRevoked && now < r.expiresAt)

/-- `RefreshToken.revokeAllForUser`: `updateMany({user, isRevoked: false},
{isRevoked: true})`. -/
def revokeAllForUser (rows : List TokenRow) (uid : Nat) : List TokenRow :=
  rows.map fun r => if r.user = uid && !r.isRevoked then { r with isRevoked := true } else r

/-- `RefreshToken.revokeToken`: `findOneAndUpdate({token},
{isRevoked: true})` — updates the first row matching the token value,
touches nothing on a miss. -/
def revokeTokenL : List TokenRow → String → List TokenRow
  | [], _ => []
  | r :: rs, t =>
      if r.token = t then { r with isRevoked := true } :: rs
      else r :: revokeTokenL rs t

/-- The atomic consume of `refreshToken` (authController.js lines 243-247):
`findOneAndUpdate({token, isRevoked: false}, {isRevoked: true},
{new: true})` — returns the updated row when a still-unrevoked row with
that token value exists, `none` otherwise, together with the new ledger. -/
def consumeIfUnrevoked : List TokenRow → String → Option TokenRow × List TokenRow
  | [], _ => (none, [])
  | r :: rs, t =>
      if r.token = t && !r.isRevoked then
        (some { r with isRevoked := true }, { r with isRevoked := true } :: rs)
      else
        let p := consumeIfUnrevoked rs t
        (p.1, r :: p.2)

/-- `Admin.findOne({email})`: mongoose matches the stored (lowercased)
email against the query value verbatim. -/
def findByEmail (accounts : List Account) (email : String) : Option Account :=
  accounts.find? fun a => a.email = email

/-- `Admin.findById`. -/
def findById (accounts : List Account) (i : Nat) : Option Account :=
  accounts.find? fun a => a.id = i

/-- `admin.save()`: replace the document with the given id. -/
def saveAccount (accounts : List Account) (a : Account) : List Account :=
  accounts.map fun b => if b.id = a.id then a else b

/-- The database state the session core touches: the `Admin` collection
and the `RefreshToken` collection. -/
structure St where
  accounts : List Account
  tokens : List TokenRow
  deriving Repr, DecidableEq

/-- An HTTP outcome: a success payload, or an `AppError` message with its
status code. -/
inductive Outcome (α : Type) where
  | ok : α → Outcome α
  | err : String → Nat → Outcome α
  deriving Repr, DecidableEq

/-- Effect of a handler on the `refreshToken` cookie: untouched, set
(`setRefreshTokenCookie`), or cleared (`clearRefreshTokenCookie`). -/
inductive CookieEff where
  | untouched
  | set (tok : String)
  | clear
  deriving Repr, DecidableEq

/-- `protect` (authController.js lines 11-53), from the point where the
bearer/cookie token has been extracted: missing token 401; `jwt.verify`
with `TokenExpiredError` mapped to a distinct message; unknown account
401; deactivated account 401; otherwise the resolved admin. -/
def protect (accounts : List Account) (tok : Option SignedToken) (now : Nat) (cfg : Config) : Outcome Account :=
  match tok with
  | none => .err "Not authorized to access this route" 401
  | some t =>
    match jwtVerify cfg.jwtSecret t now with
    | .error .expired => .err "Token expired" 401
    | .error .invalid => .err "Token is not valid" 401
    | .ok decoded =>
      match findById accounts decoded.id with
      | none => .err "Token is not valid" 401
      | some admin =>
        if !admin.isActive then .err "Account is deactivated" 401
        else .ok admin

/-- What `verifyRefreshToken` hands to the next middleware on success:
`req.admin`, `req.refreshToken`, `req.tokenDoc`. -/
structure VerifiedRefresh where
  admin : Account
  refreshToken : String
  tokenDoc : TokenRow
  deriving Repr, DecidableEq

/-- `verifyRefreshToken` (authController.js lines 56-84): missing cookie
is a 400; `findValidToken` only returns unrevoked, unexpired rows, a miss
is the generic 401; the populated user must exist. -/
def verifyRefreshToken (st : St) (cookie : Option String) (now : Nat) : Outcome VerifiedRefresh :=
  match cookie with
  | none => .err "Refresh token is required" 400
  | some rt =>
    if rt = "" then .err "Refresh token is required" 400
    else
      match findValidToken st.tokens rt now with
      | none => .err "Invalid or expired refresh token" 401
      | some doc =>
        match findById st.accounts doc.user with
        | none => .err "Invalid refresh token" 401
        | some admin => .ok { admin := admin, refreshToken := rt, tokenDoc := doc }

/-- The reuse-detection rejection message of `refreshToken`. -/
def reuseMsg : String :=
  "Refresh token reuse detected. All sessions revoked. Please log in again."

/-- Tail of the `refreshToken` handler (authController.js lines 266-281):
mint and persist a new refresh token, set it as the cookie, mint and
return a new access token. -/
def finishMint (admin : Account) (rows : List TokenRow) (now : Nat) (freshTok : String) (cfg : Config) : Outcome SignedToken × List TokenRow × CookieEff :=
  let rows' := createToken rows admin.id freshTok (parseExpireSeconds cfg.jwtRefreshExpire) now
  (.ok (generateAccessToken admin now cfg), rows', .set freshTok)

/-- `refreshToken` handler (authController.js lines 221-282), given the
request fields `verifyRefreshToken` set and the ledger state at the time
its own queries run.  Snapshot already revoked: revoke-all and reject.
Otherwise consume the presented token with the atomic conditional update;
on a miss revoke-all and reject without minting; on success mint the new
pair. -/
def refreshHandler (admin : Account) (oldTok : String) (tokenDoc : TokenRow) (rows : List TokenRow) (now : Nat) (freshTok : String) (cfg : Config) : Outcome SignedToken × List TokenRow × CookieEff :=
  if tokenDoc.isRevoked then
    (.err reuseMsg 401, revokeAllForUser rows admin.id, .untouched)
  else if tokenDoc.token ≠ "" then
    match consumeIfUnrevoked rows tokenDoc.token with
    | (none, rows') => (.err reuseMsg 401, revokeAllForUser rows' admin.id, .untouched)
    | (some _, rows') => finishMint admin rows' now freshTok cfg
  else if oldTok ≠ "" then
    finishMint admin (revokeTokenL rows oldTok) now freshTok cfg
  else
    finishMint admin rows now freshTok cfg

/-- `POST /auth/refresh` as routed (`authRouter.js` line 11):
`verifyRefreshToken` then `refreshToken`, run back to back on the same
state. -/
def refreshRoute (st : St) (cookie : Option String) (now : Nat) (freshTok : String) (cfg : Config) : Outcome SignedToken × St × CookieEff :=
  match verifyRefreshToken st cookie now with
  | .err m s => (.err m s, st, .untouched)
  | .ok v =>
    let (out, rows', ck) := refreshHandler v.admin v.refreshToken v.tokenDoc st.tokens now freshTok cfg
    (out, { st with tokens := rows' }, ck)

/-- `logout` handler (authController.js lines 285-300): revoke the
cookie's token when one is present, clear the cookie either way. -/
def logout (rows : List TokenRow) (cookie : Option String) : Outcome String × List TokenRow × CookieEff :=
  match cookie with
  | some t =>
    if t ≠ "" then (.ok "Logged out successfully", revokeTokenL rows t, .clear)
    else (.ok "Logged out successfully", rows, .clear)
  | none => (.ok "Logged out successfully", rows, .clear)

/-- The serialized admin of a JSON response: the password field is
present unless the handler deleted it. -/
structure AdminJson where
  id : Nat
  name : String
  email : String
  password : Option String
  role : String
  isActive : Bool
  lastLogin : Option Nat
  deriving Repr, DecidableEq

/-- Serialization of an `Admin` document by `res.json`: every stored
field is included, the password among them (`select: false` only applies
to queries, not to documents returned by `create()`). -/
def adminToJson (a : Account) : AdminJson :=
  { id := a.id, name := a.name, email := a.email, password := some a.password
    role := a.role, isActive := a.isActive, lastLogin := a.lastLogin }

/-- `register` (authController.js lines 137-169): duplicate email is a
400; otherwise create the admin (the pre-save hook hashes the password,
the schema lowercases the email), mint the access token, mint and persist
the root refresh token, set the cookie, and respond 201 with the created
document and the access token. -/
def register (st : St) (name email password role : String) (newId : Nat) (now : Nat) (freshTok : String) (cfg : Config) : Outcome (AdminJson × SignedToken) × St × CookieEff :=
  match findByEmail st.accounts email with
  | some _ => (.err "Admin with this email already exists" 400, st, .untouched)
  | none =>
    let admin : Account :=
      { id := newId, name := name, email := lowerStr email
        password := bcryptHash password, role := role
        isActive := true, lastLogin := none }
    let accessToken := generateAccessToken admin now cfg
    let tokens' := createToken st.tokens admin.id freshTok (parseExpireSeconds cfg.jwtRefreshExpire) now
    (.ok (adminToJson admin, accessToken),
     { accounts := st.accounts ++ [admin], tokens := tokens' }, .set freshTok)

/-- `login` (authController.js lines 172-218): missing field 400; unknown
email and wrong password both answer the same `Invalid credentials` 401;
deactivated account 401; on success update `lastLogin`, mint the pair,
set the cookie, and respond with the admin minus its password. -/
def login (st : St) (email password : String) (now : Nat) (freshTok : String) (cfg : Config) : Outcome (AdminJson × SignedToken) × St × CookieEff :=
  if email = "" ∨ password = "" then
    (.err "Email and password are required" 400, st, .untouched)
  else
    match findByEmail st.accounts email with
    | none => (.err "Invalid credentials" 401, st, .untouched)
    | some admin =>
      if !bcryptCompare password admin.password then
        (.err "Invalid credentials" 401, st, .untouched)
      else if !admin.isActive then
        (.err "Account is deactivated" 401, st, .untouched)
      else
        let admin' := { admin with lastLogin := some now }
        let accounts' := saveAccount st.accounts admin'
        let accessToken := generateAccessToken admin' now cfg
        let tokens' := createToken st.tokens admin'.id freshTok (parseExpireSeconds cfg.jwtRefreshExpire) now
        (.ok ({ adminToJson admin' with password := none }, accessToken),
         { accounts := accounts', tokens := tokens' }, .set freshTok)

/-!
Concurrency model for the refresh route.  Node interleaves requests at
`await` boundaries, so one in-flight refresh is a sequence of atomic
database accesses: the `findValidToken` read (middleware), the
conditional-update consume, then either the `revokeAllForUser` of the
failure path or the `createToken` of the mint.  A schedule decides which
of two requests performs its next access.
-/

/-- Program counter of one in-flight refresh request, between `await`s. -/
inductive Phase where
  | start
  | afterRead (admin : Account) (doc : TokenRow)
  | beforeRevokeAll (admin : Account)
  | beforeMint (admin : Account)
  | doneOk (newTok : String)
  | doneErr (msg : String) (status : Nat)
  deriving Repr, DecidableEq

/-- One atomic step of the routed refresh request presenting
`cookieTok`, minting `freshTok` on success, against the shared ledger. -/
def rstep (accounts : List Account) (now : Nat) (cookieTok freshTok : String) (cfg : Config) (rows : List TokenRow) : Phase → List TokenRow × Phase
  | .start =>
    match verifyRefreshToken ⟨accounts, rows⟩ (some cookieTok) now with
    | .err m s => (rows, .doneErr m s)
    | .ok v => (rows, .afterRead v.admin v.tokenDoc)
  | .afterRead admin doc =>
    if doc.isRevoked then (rows, .beforeRevokeAll admin)
    else if doc.token ≠ "" then
      match consumeIfUnrevoked rows doc.token with
      | (none, rows') => (rows', .beforeRevokeAll admin)
      | (some _, rows') => (rows', .beforeMint admin)
    else (revokeTokenL rows cookieTok, .beforeMint admin)
  | .beforeRevokeAll admin => (revokeAllForUser rows admin.id, .doneErr reuseMsg 401)
  | .beforeMint admin =>
    (createToken rows admin.id freshTok (parseExpireSeconds cfg.jwtRefreshExpire) now,
     .doneOk freshTok)
  | ph@(.doneOk _) => (rows, ph)
  | ph@(.doneErr _ _) => (rows, ph)

/-- Run two refresh requests that present the same `cookieTok` under a
schedule: `true` steps the first request (which would mint `f1`),
`false` the second (which would mint `f2`). -/
def run2 (accounts : List Account) (now : Nat) (cookieTok f1 f2 : String) (cfg : Config) : List Bool → List TokenRow → Phase → Phase → List TokenRow × Phase × Phase
  | [], rows, p1, p2 => (rows, p1, p2)
  | b :: bs, rows, p1, p2 =>
    if b then
      let s := rstep accounts now cookieTok f1 cfg rows p1
      run2 accounts now cookieTok f1 f2 cfg bs s.1 s.2 p2
    else
      let s := rstep accounts now cookieTok f2 cfg rows p2
      run2 accounts now cookieTok f1 f2 cfg bs s.1 p1 s.2

/-- Whether a request has produced its response. -/
def Phase.isDone : Phase → Bool
  | .doneOk _ => true
  | .doneErr _ _ => true
  | _ => false

/-- Whether a request finished successfully (new pair minted). -/
def Phase.isOk : Phase → Bool
  | .doneOk _ => true
  | _ => false

/-- Whether a finished request failed with the given message and status. -/
def Phase.isErrWith (ph : Phase) (msg : String) (status : Nat) : Bool :=
  match ph with
  | .doneErr m s => m = msg && s = status
  | _ => false

/-- Whether a finished request failed with some 401 response. -/
def Phase.isErr401 : Phase → Bool
  | .doneErr _ s => s = 401
  | _ => false

/-- The 6-step schedule encoded by the low 6 bits of `n`. -/
def schedOf (n : Nat) : List Bool :=
  (List.range 6).map n.testBit

/-- The single-account, single-active-row initial state for the
two-concurrent-refresh scenario: account 1 owns the one unrevoked row
for token `t0`, expiring at time 1000. -/
def cAdmin : Account :=
  { id := 1, name := "A", email := "a@x.com", password := bcryptHash "pw123456"
    role := "admin", isActive := true, lastLogin := none }

def cRow : TokenRow :=
  { token := "t0", user := 1, expiresAt := 1000, isRevoked := false, createdAt := 0 }

def cCfg : Config :=
  { jwtSecret := "s", jwtExpireMs := 600, jwtRefreshSecret := "r", jwtRefreshExpire := "7d" }

/-- Outcome of the concurrent-double-refresh scenario under schedule `n`:
final ledger and both requests' phases. -/
def race (n : Nat) : List TokenRow × Phase × Phase :=
  run2 [cAdmin] 0 "t0" "f1" "f2" cCfg (schedOf n) [cRow] .start .start

/-! Concrete scenario states used by counterexamples and witnesses. -/

/-- A consumed (revoked) refresh token of account 1, as a successful
rotation leaves it behind. -/
def c1Row1 : TokenRow :=
  { token := "t1", user := 1, expiresAt := 1000, isRevoked := true, createdAt := 0 }

/-- A sibling refresh token of account 1 that is still active. -/
def c1Row2 : TokenRow :=
  { token := "t2", user := 1, expiresAt := 1000, isRevoked := false, createdAt := 0 }

/-- State for the replay scenario: account 1 with one consumed and one
active refresh token. -/
def c1St : St :=
  { accounts := [cAdmin], tokens := [c1Row1, c1Row2] }

/-- A deactivated account that still holds a live refresh token. -/
def dAdmin : Account :=
  { id := 2, name := "D", email := "d@x.com", password := bcryptHash "pw123456"
    role := "admin", isActive := false, lastLogin := none }

/-- The live refresh token of the deactivated account. -/
def dRow : TokenRow :=
  { token := "t3", user := 2, expiresAt := 1000, isRevoked := false, createdAt := 0 }

/-- State for the deactivated-account refresh scenario. -/
def dSt : St :=
  { accounts := [dAdmin], tokens := [dRow] }

/-! Specification predicates, one per verified behavior, so witnesses can
restate them at concrete inputs. -/

/-- Behavior of the refresh handler's consume step: the conditional
update succeeds exactly when a still-unrevoked row with the presented
token value exists, the consumed row is that row with `revoked` set, a
failed consume answers `ReuseDetected` after revoking all the account's
tokens and mints nothing (the ledger keeps its length), and only a
successful consume mints the new refresh row and access token. -/
def ConsumeSpec (admin : Account) (oldTok : String) (doc : TokenRow) (rows : List TokenRow) (now : Nat) (freshTok : String) (cfg : Config) : Prop :=
  ((consumeIfUnrevoked rows doc.token).1.isSome = true ↔
     ∃ r ∈ rows, r.token = doc.token ∧ r.isRevoked = false) ∧
  (∀ c, (consumeIfUnrevoked rows doc.token).1 = some c →
     c.isRevoked = true ∧ ∃ r ∈ rows, r.token = doc.token ∧ r.isRevoked = false ∧
       c = { r with isRevoked := true }) ∧
  ((consumeIfUnrevoked rows doc.token).1 = none →
     refreshHandler admin oldTok doc rows now freshTok cfg =
       (.err reuseMsg 401, revokeAllForUser rows admin.id, .untouched) ∧
     (revokeAllForUser rows admin.id).length = rows.length) ∧
  (∀ c rows', consumeIfUnrevoked rows doc.token = (some c, rows') →
     refreshHandler admin oldTok doc rows now freshTok cfg =
       (.ok (generateAccessToken admin now cfg),
        createToken rows' admin.id freshTok (parseExpireSeconds cfg.jwtRefreshExpire) now,
        .set freshTok))

/-- Behavior of `logout` presenting token `t`: ledger updated through
`revokeToken`, cookie cleared, 200 response; length preserved; rows with
other token values keep every field and their position; the row carrying
`t` ends revoked; a miss changes nothing; an absent cookie also clears. -/
def LogoutSpec (rows : List TokenRow) (t : String) : Prop :=
  logout rows (some t) = (.ok "Logged out successfully", revokeTokenL rows t, .clear) ∧
  (revokeTokenL rows t).length = rows.length ∧
  (∀ i r, rows.get? i = some r → r.token ≠ t → (revokeTokenL rows t).get? i = some r) ∧
  (∀ i r, rows.get? i = some r → r.token = t →
     (revokeTokenL rows t).get? i = some { r with isRevoked := true }) ∧
  ((∀ r ∈ rows, r.token ≠ t) → revokeTokenL rows t = rows) ∧
  logout rows none = (.ok "Logged out successfully", rows, .clear)

/-- Behavior of `login`: same `Invalid credentials` 401 for unknown email
and for password mismatch, `Account is deactivated` 401 for an inactive
account, and on success the saved `lastLogin`, the minted pair, the set
cookie and the password-stripped response. -/
def LoginSpec (st : St) (email pw : String) (now : Nat) (f : String) (cfg : Config) : Prop :=
  (findByEmail st.accounts email = none →
     login st email pw now f cfg = (.err "Invalid credentials" 401, st, .untouched)) ∧
  (∀ a, findByEmail st.accounts email = some a → bcryptCompare pw a.password = false →
     login st email pw now f cfg = (.err "Invalid credentials" 401, st, .untouched)) ∧
  (∀ a, findByEmail st.accounts email = some a → bcryptCompare pw a.password = true →
     a.isActive = false →
     login st email pw now f cfg = (.err "Account is deactivated" 401, st, .untouched)) ∧
  (∀ a, findByEmail st.accounts email = some a → bcryptCompare pw a.password = true →
     a.isActive = true →
     login st email pw now f cfg =
       (.ok ({ adminToJson { a with lastLogin := some now } with password := none },
             generateAccessToken { a with lastLogin := some now } now cfg),
        ({ accounts := saveAccount st.accounts { a with lastLogin := some now }
           tokens := createToken st.tokens a.id f (parseExpireSeconds cfg.jwtRefreshExpire) now } : St),
        .set f))

/-- Behavior of `protect` on a token minted by `generateAccessToken` at
time `now0`: accepted while the TTL has not elapsed (account present and
active), the distinct `Token expired` 401 afterwards, `Token is not
valid` 401 when the account is gone, `Account is deactivated` 401 when it
is inactive. -/
def ProtectSpec (accounts : List Account) (a : Account) (now0 now : Nat) (cfg : Config) : Prop :=
  (now < now0 + cfg.jwtExpireMs → findById accounts a.id = some a → a.isActive = true →
     protect accounts (some (generateAccessToken a now0 cfg)) now cfg = .ok a) ∧
  (now0 + cfg.jwtExpireMs ≤ now →
     protect accounts (some (generateAccessToken a now0 cfg)) now cfg = .err "Token expired" 401) ∧
  ((.err "Token expired" 401 : Outcome Account) ≠ .err "Token is not valid" 401) ∧
  (now < now0 + cfg.jwtExpireMs → findById accounts a.id = none →
     protect accounts (some (generateAccessToken a now0 cfg)) now cfg = .err "Token is not valid" 401) ∧
  (∀ b, now < now0 + cfg.jwtExpireMs → findById accounts a.id = some b → b.isActive = false →
     protect accounts (some (generateAccessToken a now0 cfg)) now cfg = .err "Account is deactivated" 401)

/-- Behavior of refresh for a deactivated account holding a live token:
the refresh succeeds, mints the pair and sets the cookie, although login
for the same account is rejected with `Account is deactivated`. -/
def DeactivatedRefreshSpec (st : St) (a : Account) (t : String) (now : Nat) (f : String) (pw : String) (cfg : Config) : Prop :=
  (refreshRoute st (some t) now f cfg).1 = .ok (generateAccessToken a now cfg) ∧
  (refreshRoute st (some t) now f cfg).2.2 = .set f ∧
  (∃ r ∈ (refreshRoute st (some t) now f cfg).2.1.tokens,
     r.token = f ∧ r.user = a.id ∧ r.isRevoked = false) ∧
  login st a.email pw now f cfg = (.err "Account is deactivated" 401, st, .untouched)

/-- Behavior of `generateRefreshToken` with respect to persistence: a
failing create propagates (no token handed out), and a returned token is
always recorded as an unrevoked ledger row of the owning account. -/
def MintSpec (persistFails : Bool) (a : Account) (rows : List TokenRow) (now : Nat) (tokVal : String) (cfg : Config) : Prop :=
  generateRefreshToken true a rows now tokVal cfg = .error () ∧
  (∀ tok rows', generateRefreshToken persistFails a rows now tokVal cfg = .ok (tok, rows') →
     persistFails = false ∧ tok = tokVal ∧
     rows' = createToken rows a.id tokVal (parseExpireSeconds cfg.jwtRefreshExpire) now ∧
     ∃ r ∈ rows', r.token = tok ∧ r.user = a.id ∧ r.isRevoked = false)

/-! Helper lemmas about the ledger operations. -/

theorem consume_none_snd (rows : List TokenRow) (t : String)
    (h : (consumeIfUnrevoked rows t).1 = none) : (consumeIfUnrevoked rows t).2 = rows := by
  induction rows with
  | nil => rfl
  | cons r rs ih =>
    by_cases hc : (r.token = t && !r.isRevoked) = true
    · simp [consumeIfUnrevoked, hc] at h
    · simp only [consumeIfUnrevoked, hc] at h ⊢
      simp only [Bool.if_false_left] at *
      simp at h ⊢
      exact ih h

theorem consume_fst_isSome_iff (rows : List TokenRow) (t : String) :
    ((consumeIfUnrevoked rows t).1.isSome = true) ↔
      ∃ r ∈ rows, r.token = t ∧ r.isRevoked = false := by
  induction rows with
  | nil => simp [consumeIfUnrevoked]
  | cons r rs ih =>
    by_cases hc : (r.token = t && !r.isRevoked) = true
    · simp only [Bool.and_eq_true, Bool.not_eq_true', decide_eq_true_eq] at hc
      simp [consumeIfUnrevoked, hc]
    · simp only [consumeIfUnrevoked, hc, if_false]
      simp only [Option.isSome] at ih ⊢
      constructor
      · intro h
        obtain ⟨r', hr', h1, h2⟩ := ih.mp h
        exact ⟨r', List.mem_cons_of_mem _ hr', h1, h2⟩
      · intro ⟨r', hr', h1, h2⟩
        rcases List.mem_cons.mp hr' with heq | hmem
        · subst heq
          simp [h1, h2] at hc
        · exact ih.mpr ⟨r', hmem, h1, h2⟩

theorem consume_fst_some (rows : List TokenRow) (t : String) (c : TokenRow)
    (h : (consumeIfUnrevoked rows t).1 = some c) :
    c.isRevoked = true ∧ c.token = t ∧
      ∃ r ∈ rows, r.token = t ∧ r.isRevoked = false ∧ c = { r with isRevoked := true } := by
  induction rows with
  | nil => simp [consumeIfUnrevoked] at h
  | cons r rs ih =>
    by_cases hc : (r.token = t && !r.isRevoked) = true
    · have hc' := hc
      simp only [Bool.and_eq_true, decide_eq_true_eq, Bool.not_eq_true'] at hc'
      have h1 : r.token = t := hc'.1
      have h2 : r.isRevoked = false := hc'.2
      simp only [consumeIfUnrevoked] at h
      rw [if_pos hc] at h
      simp only [Option.some.injEq] at h
      subst h
      exact ⟨rfl, h1, r, List.mem_cons_self r rs, h1, h2, rfl⟩
    · simp only [consumeIfUnrevoked] at h
      rw [if_neg hc] at h
      obtain ⟨h1, h2, r', hr', h3, h4, h5⟩ := ih h
      exact ⟨h1, h2, r', List.mem_cons_of_mem _ hr', h3, h4, h5⟩

theorem revokeTokenL_length (rows : List TokenRow) (t : String) :
    (revokeTokenL rows t).length = rows.length := by
  induction rows with
  | nil => rfl
  | cons r rs ih =>
    by_cases hc : r.token = t
    · simp [revokeTokenL, hc]
    · simp [revokeTokenL, hc, ih]

theorem revokeTokenL_not_mem (rows : List TokenRow) (t : String)
    (h : ∀ r ∈ rows, r.token ≠ t) : revokeTokenL rows t = rows := by
  induction rows with
  | nil => rfl
  | cons r rs ih =>
    have hr := h r (List.mem_cons_self r rs)
    simp only [revokeTokenL, if_neg hr]
    rw [ih fun r' hr' => h r' (List.mem_cons_of_mem _ hr')]

theorem revokeTokenL_get?_ne (rows : List TokenRow) (t : String) (i : Nat) (r : TokenRow)
    (hr : rows.get? i = some r) (h : r.token ≠ t) :
    (revokeTokenL rows t).get? i = some r := by
  induction rows generalizing i with
  | nil => simp at hr
  | cons a rs ih =>
    cases i with
    | zero =>
      simp only [List.get?_cons_zero, Option.some.injEq] at hr
      subst hr
      simp [revokeTokenL, if_neg h]
    | succ i =>
      simp only [List.get?_cons_succ] at hr
      by_cases hc : a.token = t
      · simp only [revokeTokenL, if_pos hc, List.get?_cons_succ]
        exact hr
      · simp only [revokeTokenL, if_neg hc, List.get?_cons_succ]
        exact ih i hr

theorem revokeTokenL_get?_eq (rows : List TokenRow) (t : String) (i : Nat) (r : TokenRow)
    (huniq : rows.Pairwise fun a b => a.token ≠ b.token)
    (hr : rows.get? i = some r) (h : r.token = t) :
    (revokeTokenL rows t).get? i = some { r with isRevoked := true } := by
  induction rows generalizing i with
  | nil => simp at hr
  | cons a rs ih =>
    rcases List.pairwise_cons.mp huniq with ⟨hhead, htail⟩
    cases i with
    | zero =>
      simp only [List.get?_cons_zero, Option.some.injEq] at hr
      subst hr
      simp [revokeTokenL, if_pos h]
    | succ i =>
      simp only [List.get?_cons_succ] at hr
      by_cases hc : a.token = t
      · exfalso
        have hmem : r ∈ rs := List.get?_mem hr
        exact hhead r hmem (hc.trans h.symm)
      · simp only [revokeTokenL, if_neg hc, List.get?_cons_succ]
        exact ih i htail hr

/-! Claim theorems. -/

/-- Claim C1: the spec requires that presenting an already-consumed
(revoked) refresh token fail with `ReuseDetected` and revoke every token
of the account; the code instead rejects it through `findValidToken`
(which filters out revoked rows) with the generic
`Invalid or expired refresh token` 401, leaves the ledger untouched and
never reaches the handler's reuse branch: with account 1 holding consumed
token `t1` and active sibling `t2`, refreshing with `t1` answers the
generic 401, is not the reuse rejection, and leaves `t2` valid. -/
theorem consumed_token_replay_rejected_generic :
    refreshRoute c1St (some "t1") 0 "f9" cCfg =
      (.err "Invalid or expired refresh token" 401, c1St, .untouched) ∧
    (refreshRoute c1St (some "t1") 0 "f9" cCfg).1 ≠ .err reuseMsg 401 ∧
    findValidToken (refreshRoute c1St (some "t1") 0 "f9" cCfg).2.1.tokens "t2" 0 = some c1Row2 := by
  refine ⟨rfl, ?_, rfl⟩
  intro h
  simp [refreshRoute, verifyRefreshToken, findValidToken, c1St, c1Row1, c1Row2, reuseMsg,
    List.find?] at h

/-- Claim C3 counterexample: under the schedule where the first refresh
request runs to completion before the second one reads the ledger (both
calls in flight on the same token `t0`), the loser fails with the generic
`Invalid or expired refresh token` — not `ReuseDetected` — and the
winner's freshly minted token `f1` is left as an unrevoked, unexpired
row of the account, so the account does not end with zero active rows. -/
theorem double_refresh_claim_counterexample :
    (race 7).2.1 = .doneOk "f1" ∧
    (race 7).2.2 = .doneErr "Invalid or expired refresh token" 401 ∧
    (race 7).2.2.isErrWith reuseMsg 401 = false ∧
    (race 7).1.any (fun r => r.user = 1 && !r.isRevoked && 0 < r.expiresAt) = true := by
  decide

/-- Claim C3 (amended): when two refresh calls present the same token
value concurrently, in every complete interleaving exactly one succeeds
with a new token pair; the other fails with a 401 that is either
`ReuseDetected` (it lost the conditional update) or the generic
`InvalidRefreshToken` (its ledger read ran after the winner consumed the
row); and the originally presented token's row is revoked — but the
winner's fresh token may remain an active row for the account. -/
theorem double_refresh_amended :
    ∀ n : Fin 64,
      (((race n.val).2.1.isDone && (race n.val).2.2.isDone) = true) →
      (((race n.val).2.1.isOk != (race n.val).2.2.isOk) = true) ∧
      ((race n.val).2.1.isOk = false →
        ((race n.val).2.1.isErrWith reuseMsg 401 ||
         (race n.val).2.1.isErrWith "Invalid or expired refresh token" 401) = true) ∧
      ((race n.val).2.2.isOk = false →
        ((race n.val).2.2.isErrWith reuseMsg 401 ||
         (race n.val).2.2.isErrWith "Invalid or expired refresh token" 401) = true) ∧
      ((race n.val).1.all (fun r => r.token != "t0" || r.isRevoked) = true) := by
  decide

/-- Witness for `double_refresh_amended` at the interleaving 13 (both
requests read, the winner consumes and mints, the loser then fails its
conditional update and mass-revokes). -/
theorem double_refresh_amended_witness :
    (((race 13).2.1.isDone && (race 13).2.2.isDone) = true) ∧
    ((((race 13).2.1.isOk != (race 13).2.2.isOk) = true) ∧
     ((race 13).2.1.isOk = false →
       ((race 13).2.1.isErrWith reuseMsg 401 ||
        (race 13).2.1.isErrWith "Invalid or expired refresh token" 401) = true) ∧
     ((race 13).2.2.isOk = false →
       ((race 13).2.2.isErrWith reuseMsg 401 ||
        (race 13).2.2.isErrWith "Invalid or expired refresh token" 401) = true) ∧
     ((race 13).1.all (fun r => r.token != "t0" || r.isRevoked) = true)) :=
  ⟨by decide, double_refresh_amended ⟨13, by decide⟩ (by decide)⟩

/-- Claim C4 counterexample: a refresh call with no refresh cookie is
rejected with status 400 (`Refresh token is required`), not with the 401
`InvalidRefreshToken` the claim requires for the missing case. -/
theorem missing_refresh_cookie_status_counterexample :
    (refreshRoute { accounts := [cAdmin], tokens := [] } none 0 "f" cCfg).1 =
      .err "Refresh token is required" 400 ∧
    (refreshRoute { accounts := [cAdmin], tokens := [] } none 0 "f" cCfg).1 ≠
      .err "Invalid or expired refresh token" 401 := by
  exact ⟨rfl, by decide⟩

/-- Claim C4 (amended): a refresh call with a missing cookie fails with
400 `Refresh token is required`; presenting a token unknown to the ledger
or past its expiry with `revoked = false` fails with the 401
`Invalid or expired refresh token`; and in all three cases the state is
untouched — in particular the expired-but-never-rotated case triggers no
mass revocation. -/
theorem invalid_refresh_token_amended (st : St) (now : Nat) (freshTok : String)
    (cfg : Config) (t : String) (ht : t ≠ "") :
    refreshRoute st none now freshTok cfg =
      (.err "Refresh token is required" 400, st, .untouched) ∧
    ((∀ r ∈ st.tokens, r.token ≠ t) →
      refreshRoute st (some t) now freshTok cfg =
        (.err "Invalid or expired refresh token" 401, st, .untouched)) ∧
    ((∀ r ∈ st.tokens, r.token = t → r.isRevoked = false ∧ r.expiresAt ≤ now) →
      refreshRoute st (some t) now freshTok cfg =
        (.err "Invalid or expired refresh token" 401, st, .untouched)) := by
  refine ⟨rfl, ?_, ?_⟩
  · intro h
    have hfind : findValidToken st.tokens t now = none := by
      apply List.find?_eq_none.mpr
      intro r hr
      simp [h r hr]
    simp [refreshRoute, verifyRefreshToken, if_neg ht, hfind]
  · intro h
    have hfind : findValidToken st.tokens t now = none := by
      apply List.find?_eq_none.mpr
      intro r hr
      by_cases htk : r.token = t
      · rcases h r hr htk with ⟨_, hexp⟩
        simp [htk, Nat.not_lt_of_le hexp]
      · simp [htk]
    simp [refreshRoute, verifyRefreshToken, if_neg ht, hfind]

/-- Witness for `invalid_refresh_token_amended`: the empty ledger and an
expired-unrevoked ledger, with token value `tx`. -/
theorem invalid_refresh_token_amended_witness :
    refreshRoute { accounts := [cAdmin], tokens := [] } none 5 "f" cCfg =
      (.err "Refresh token is required" 400, { accounts := [cAdmin], tokens := [] }, .untouched) ∧
    ((∀ r ∈ ({ accounts := [cAdmin], tokens := [] } : St).tokens, r.token ≠ "tx") →
      refreshRoute { accounts := [cAdmin], tokens := [] } (some "tx") 5 "f" cCfg =
        (.err "Invalid or expired refresh token" 401,
         { accounts := [cAdmin], tokens := [] }, .untouched)) ∧
    ((∀ r ∈ ({ accounts := [cAdmin], tokens := [] } : St).tokens,
        r.token = "tx" → r.isRevoked = false ∧ r.expiresAt ≤ 5) →
      refreshRoute { accounts := [cAdmin], tokens := [] } (some "tx") 5 "f" cCfg =
        (.err "Invalid or expired refresh token" 401,
         { accounts := [cAdmin], tokens := [] }, .untouched)) :=
  invalid_refresh_token_amended { accounts := [cAdmin], tokens := [] } 5 "f" cCfg "tx"
    (by decide)

/-- Claim C7: the spec requires the registered account to be returned
with the password field stripped; the code answers with the document
`Admin.create` returned, whose JSON serialization still carries the
bcrypt hash (`select: false` only applies to queries).  Registering a
fresh email succeeds with the hashed password present in the response
(and persisted hashed in the store, with the access token and refresh
cookie set as claimed), and a second registration of the same email
fails with the 400 duplicate error. -/
theorem register_response_contains_password_hash :
    (register { accounts := [], tokens := [] } "Alice" "A@X.com" "Secr3t!" "admin" 1 0 "rt1" cCfg).1 =
      .ok ({ id := 1, name := "Alice", email := "a@x.com"
             password := some (bcryptHash "Secr3t!"), role := "admin"
             isActive := true, lastLogin := none },
           { claims := { id := 1, email := "a@x.com", role := "admin" }
             exp := 600, secret := "s" }) ∧
    (∀ a tok,
      (register { accounts := [], tokens := [] } "Alice" "A@X.com" "Secr3t!" "admin" 1 0 "rt1" cCfg).1 =
        .ok (a, tok) → a.password ≠ none) ∧
    (register { accounts := [], tokens := [] } "Alice" "A@X.com" "Secr3t!" "admin" 1 0 "rt1" cCfg).2.1 =
      ({ accounts := [{ id := 1, name := "Alice", email := "a@x.com"
                        password := bcryptHash "Secr3t!", role := "admin"
                        isActive := true, lastLogin := none }]
         tokens := [mkTokenRow 1 "rt1" 604800 0] } : St) ∧
    (register { accounts := [], tokens := [] } "Alice" "A@X.com" "Secr3t!" "admin" 1 0 "rt1" cCfg).2.2 =
      .set "rt1" ∧
    (register
      (register { accounts := [], tokens := [] } "Alice" "A@X.com" "Secr3t!" "admin" 1 0 "rt1" cCfg).2.1
      "Bob" "a@x.com" "0th3rPw!" "admin" 2 0 "rt2" cCfg).1 =
      .err "Admin with this email already exists" 400 := by
  refine ⟨by decide, ?_, by decide, by decide, by decide⟩
  intro a tok h
  have h' := h
  rw [show (register { accounts := [], tokens := [] } "Alice" "A@X.com" "Secr3t!" "admin" 1 0 "rt1" cCfg).1 =
      .ok ({ id := 1, name := "Alice", email := "a@x.com"
             password := some (bcryptHash "Secr3t!"), role := "admin"
             isActive := true, lastLogin := none },
           { claims := { id := 1, email := "a@x.com", role := "admin" }
             exp := 600, secret := "s" }) from by decide] at h'
  simp only [Outcome.ok.injEq, Prod.mk.injEq] at h'
  rw [← h'.1]
  simp

/-- Claim C2: when the presented token's ledger row is valid at lookup
time, that row is unrevoked and carries the presented value, and the
handler consumes it with the conditional update `{token, isRevoked:
false} ↦ {isRevoked: true}`: a consume that returns no row leads to
revoke-all plus `ReuseDetected` with nothing minted, and only a
successful consume mints the new refresh row and access token. -/
theorem refresh_consume_cas (admin : Account) (oldTok : String) (rows0 : List TokenRow)
    (tok : String) (now0 : Nat) (doc : TokenRow) (rows : List TokenRow) (now : Nat)
    (freshTok : String) (cfg : Config)
    (hvalid : findValidToken rows0 tok now0 = some doc) (htok : tok ≠ "") :
    doc.isRevoked = false ∧ doc.token = tok ∧
    ConsumeSpec admin oldTok doc rows now freshTok cfg := by
  have hp := List.find?_some hvalid
  simp only [Bool.and_eq_true, Bool.not_eq_true', decide_eq_true_eq] at hp
  obtain ⟨⟨htk, hrev⟩, _⟩ := hp
  have htkne : doc.token ≠ "" := by rw [htk]; exact htok
  refine ⟨hrev, htk, consume_fst_isSome_iff rows doc.token,
    fun c hc => ?_, fun hnone => ?_, fun c rows' hpair => ?_⟩
  · obtain ⟨h1, _, r, hr, h3, h4, h5⟩ := consume_fst_some rows doc.token c hc
    exact ⟨h1, r, hr, h3, h4, h5⟩
  · have hpair : consumeIfUnrevoked rows doc.token = (none, rows) :=
      Prod.ext hnone (consume_none_snd rows doc.token hnone)
    constructor
    · simp only [refreshHandler, hrev, Bool.false_eq_true, if_false, hpair, if_pos htkne]
    · simp [revokeAllForUser]
  · simp only [refreshHandler, hrev, Bool.false_eq_true, if_false, hpair, if_pos htkne,
      finishMint]

/-- Witness for `refresh_consume_cas` at the live row `cRow`. -/
theorem refresh_consume_cas_witness :
    cRow.isRevoked = false ∧ cRow.token = "t0" ∧
    ConsumeSpec cAdmin "t0" cRow [cRow] 0 "f1" cCfg :=
  refresh_consume_cas cAdmin "t0" [cRow] "t0" 0 cRow [cRow] 0 "f1" cCfg (by decide) (by decide)

/-- Claim C5: logging out with a presented refresh token revokes exactly
the ledger row carrying that value — every other row of any account keeps
all of its fields and its position — revoking a missing token is not an
error, and the cookie is cleared in every case, including when no cookie
was presented. -/
theorem logout_revokes_only_presented (rows : List TokenRow) (t : String) (ht : t ≠ "")
    (huniq : rows.Pairwise fun a b => a.token ≠ b.token) :
    LogoutSpec rows t := by
  refine ⟨by simp [logout, ht], revokeTokenL_length rows t,
    fun i r hr h => revokeTokenL_get?_ne rows t i r hr h,
    fun i r hr h => revokeTokenL_get?_eq rows t i r huniq hr h,
    fun h => revokeTokenL_not_mem rows t h, rfl⟩

/-- Witness for `logout_revokes_only_presented`: revoking `t2` in a
two-row ledger. -/
theorem logout_revokes_only_presented_witness : LogoutSpec [c1Row2, dRow] "t2" :=
  logout_revokes_only_presented [c1Row2, dRow] "t2" (by decide) (by decide)

/-- Claim C6: `generateRefreshToken` persists the ledger row before
returning the token: a persistence failure makes the mint fail with no
token returned, and every returned token is recorded as an unrevoked row
owned by the minting account. -/
theorem mint_refresh_persists_or_fails (persistFails : Bool) (a : Account)
    (rows : List TokenRow) (now : Nat) (tokVal : String) (cfg : Config) :
    MintSpec persistFails a rows now tokVal cfg := by
  constructor
  · simp [generateRefreshToken, createTokenE]
  · intro tok rows' h
    cases persistFails with
    | true => simp [generateRefreshToken, createTokenE] at h
    | false =>
      simp only [generateRefreshToken, createTokenE, if_false, Bool.false_eq_true,
        Except.ok.injEq, Prod.mk.injEq] at h
      obtain ⟨h1, h2⟩ := h
      subst h1
      subst h2
      refine ⟨rfl, rfl, rfl, mkTokenRow a.id tokVal (parseExpireSeconds cfg.jwtRefreshExpire) now,
        List.mem_append_right _ (List.mem_singleton_self _), rfl, rfl, rfl⟩

/-- Witness for `mint_refresh_persists_or_fails` on the empty ledger. -/
theorem mint_refresh_persists_or_fails_witness : MintSpec false cAdmin [] 0 "t9" cCfg :=
  mint_refresh_persists_or_fails false cAdmin [] 0 "t9" cCfg

/-- Claim C8: login answers the identical `Invalid credentials` 401 for
an unknown email and for a password mismatch, `Account is deactivated`
401 for an inactive account, and on success saves the last-login
timestamp and returns the account without its password plus the access
token. -/
theorem login_error_taxonomy (st : St) (email pw : String) (now : Nat) (f : String)
    (cfg : Config) (he : email ≠ "") (hp : pw ≠ "") :
    LoginSpec st email pw now f cfg := by
  have hne : ¬(email = "" ∨ pw = "") := by
    rintro (h | h)
    · exact he h
    · exact hp h
  refine ⟨fun hfind => ?_, fun a hfind hcmp => ?_, fun a hfind hcmp hact => ?_,
    fun a hfind hcmp hact => ?_⟩
  · simp [login, if_neg hne, hfind]
  · simp [login, if_neg hne, hfind, hcmp]
  · simp [login, if_neg hne, hfind, hcmp, hact]
  · simp [login, if_neg hne, hfind, hcmp, hact]

/-- Witness for `login_error_taxonomy`: successful login of `cAdmin`. -/
theorem login_error_taxonomy_witness : LoginSpec { accounts := [cAdmin], tokens := [] } "a@x.com" "pw123456" 5 "f1" cCfg :=
  login_error_taxonomy { accounts := [cAdmin], tokens := [] } "a@x.com" "pw123456" 5 "f1" cCfg
    (by decide) (by decide)

/-- Claim C9: a token minted by `generateAccessToken` is accepted by
`protect` for an existing active account until its TTL elapses; once
elapsed it fails with the distinct `Token expired` message, not the
generic one; a missing account gives `Token is not valid` and an
inactive one `Account is deactivated`. -/
theorem access_token_roundtrip (accounts : List Account) (a : Account) (now0 now : Nat)
    (cfg : Config) : ProtectSpec accounts a now0 now cfg := by
  refine ⟨fun hlt hfind hact => ?_, fun hle => ?_, by simp, fun hlt hfind => ?_,
    fun b hlt hfind hact => ?_⟩
  · simp [protect, jwtVerify, generateAccessToken, Nat.not_le_of_lt hlt, hfind, hact]
  · simp [protect, jwtVerify, generateAccessToken, hle]
  · simp [protect, jwtVerify, generateAccessToken, Nat.not_le_of_lt hlt, hfind]
  · simp [protect, jwtVerify, generateAccessToken, Nat.not_le_of_lt hlt, hfind, hact]

/-- Witness for `access_token_roundtrip`: `cAdmin` within TTL. -/
theorem access_token_roundtrip_witness : ProtectSpec [cAdmin] cAdmin 0 5 cCfg :=
  access_token_roundtrip [cAdmin] cAdmin 0 5 cCfg

/-- Claim C10: the refresh path never consults the account's active
flag: an account with `isActive = false` that still holds an unrevoked,
unexpired refresh token refreshes successfully — new access token, new
refresh row, rotated cookie — although a login with correct credentials
for the very same account fails with `Account is deactivated`. -/
theorem refresh_ignores_active_flag (st : St) (a : Account) (doc : TokenRow) (t : String)
    (now : Nat) (f : String) (pw : String) (cfg : Config)
    (ht : t ≠ "")
    (hfind : findValidToken st.tokens t now = some doc)
    (hacct : findById st.accounts doc.user = some a)
    (hinactive : a.isActive = false)
    (hpw : bcryptCompare pw a.password = true)
    (hemail : findByEmail st.accounts a.email = some a)
    (hemne : a.email ≠ "") (hpwne : pw ≠ "") :
    DeactivatedRefreshSpec st a t now f pw cfg := by
  have hp := List.find?_some hfind
  simp only [Bool.and_eq_true, Bool.not_eq_true', decide_eq_true_eq] at hp
  obtain ⟨⟨htk, hrev⟩, _⟩ := hp
  have htkne : doc.token ≠ "" := by rw [htk]; exact ht
  have hmem : doc ∈ st.tokens := List.mem_of_find?_eq_some hfind
  have hsome : (consumeIfUnrevoked st.tokens doc.token).1.isSome = true :=
    (consume_fst_isSome_iff st.tokens doc.token).mpr ⟨doc, hmem, rfl, hrev⟩
  obtain ⟨c, hc⟩ := Option.isSome_iff_exists.mp hsome
  have hroute : refreshRoute st (some t) now f cfg =
      (.ok (generateAccessToken a now cfg),
       { st with tokens := (createToken (consumeIfUnrevoked st.tokens doc.token).2 a.id f
                             (parseExpireSeconds cfg.jwtRefreshExpire) now) },
       .set f) := by
    rcases hpp : consumeIfUnrevoked st.tokens doc.token with ⟨oc, rows2⟩
    rw [hpp] at hc
    simp only at hc
    subst hc
    simp only [refreshRoute, verifyRefreshToken, if_neg ht, hfind, hacct]
    simp only [refreshHandler, hrev, Bool.false_eq_true, if_false, if_pos htkne, hpp,
      finishMint]
  have hlogin : LoginSpec st a.email pw now f cfg :=
    login_error_taxonomy st a.email pw now f cfg hemne hpwne
  refine ⟨by rw [hroute], by rw [hroute], ?_, hlogin.2.2.1 a hemail hpw hinactive⟩
  rw [hroute]
  exact ⟨mkTokenRow a.id f (parseExpireSeconds cfg.jwtRefreshExpire) now,
    List.mem_append_right _ (List.mem_singleton_self _), rfl, rfl, rfl⟩

/-- Witness for `refresh_ignores_active_flag`: the deactivated account 2
with its live token `t3`. -/
theorem refresh_ignores_active_flag_witness :
    DeactivatedRefreshSpec dSt dAdmin "t3" 0 "f7" "pw123456" cCfg :=
  refresh_ignores_active_flag dSt dAdmin dRow "t3" 0 "f7" "pw123456" cCfg
    (by decide) (by decide) (by decide) (by decide) (by decide) (by decide)
    (by decide) (by decide)

end Kaceylon
